import Mathlib

/-!
# Travel cash declaration checker: embedding of src/App.tsx

Shallow embedding of the rate table, the declaration evaluator (`check`,
`results`, the `idr` amount parsing) and the rate provider (`loadRates`)
of src/App.tsx.  JavaScript numbers are modelled as exact rationals with an
explicit NaN value (`JsNum`); strings are Lean strings; the settled outcome
of one remote lookup (fetch plus JSON decoding) is a `LookupOutcome`.
-/

/-- The three foreign currencies (the `Currency` union type, src/App.tsx line 6). -/
inductive Currency
  | SGD
  | AED
  | EUR
deriving DecidableEq

/-- The three jurisdiction keys of the `LIMITS` record (src/App.tsx line 8). -/
inductive Region
  | SG
  | AE
  | EU
deriving DecidableEq

/-- One entry of the `LIMITS` record: display label, threshold currency and
threshold amount. -/
structure Limit where
  label : String
  currency : Currency
  amount : ℚ
deriving DecidableEq

/-- The `LIMITS` table (src/App.tsx lines 8-12). -/
def LIMITS : Region → Limit
  | Region.SG => ⟨"Singapur", Currency.SGD, 20000⟩
  | Region.AE => ⟨"VAE (Abu Dhabi)", Currency.AED, 60000⟩
  | Region.EU => ⟨"EU/Österreich", Currency.EUR, 10000⟩

/-- A JavaScript number: NaN or an exact rational. -/
inductive JsNum
  | nan
  | num (q : ℚ)
deriving DecidableEq

/-- The rate table produced by the `rates` memo (src/App.tsx lines 31-35):
one JavaScript number per currency. -/
structure Rates where
  SGD : JsNum
  AED : JsNum
  EUR : JsNum
deriving DecidableEq

/-- The dynamic lookup `rates[limitCurrency]` (src/App.tsx line 40). -/
def Rates.get : Rates → Currency → JsNum
  | r, Currency.SGD => r.SGD
  | r, Currency.AED => r.AED
  | r, Currency.EUR => r.EUR

/-- Models the coercion `Number(s) || NaN` of src/App.tsx lines 32-34 at the
value level: the falsy numbers 0 and NaN collapse to NaN, every other number
passes through unchanged. -/
def orNaN : JsNum → JsNum
  | JsNum.nan => JsNum.nan
  | JsNum.num q => if q = 0 then JsNum.nan else JsNum.num q

/-- The `rates` memo (src/App.tsx lines 31-35), applied to the `Number`
coercion results of the three manual rate strings. -/
def mkRates (vSGD vAED vEUR : JsNum) : Rates :=
  ⟨orNaN vSGD, orNaN vAED, orNaN vEUR⟩

/-- Models `String(amountIDR).replace(/\D/g, "")` (src/App.tsx line 37): keep
only the decimal digit characters, in order. -/
def stripNonDigits (s : String) : String :=
  ⟨s.data.filter fun c => c.isDigit⟩

/-- Models `Number` applied to a digits-only string: its decimal value, with 0
for the empty string. -/
def natOfDigits (s : String) : ℕ :=
  s.data.foldl (fun acc c => 10 * acc + (c.toNat - 48)) 0

/-- The parsed amount `idr` (src/App.tsx line 37). -/
def idr (amountIDR : String) : ℕ :=
  natOfDigits (stripNonDigits amountIDR)

/-- The record returned by `check` on success (src/App.tsx line 45). -/
structure CheckResult where
  converted : ℚ
  needsDecl : Bool
  maxBeforeDeclIDR : ℤ
deriving DecidableEq

/-- The `check` function (src/App.tsx lines 39-46).  The guard
`!rate || isNaN(rate) || !idr` rejects exactly a NaN rate, a zero rate and a
zero amount. -/
def check (rates : Rates) (idr : ℕ) (limitCurrency : Currency) (limitAmount : ℚ) :
    Option CheckResult :=
  match rates.get limitCurrency with
  | JsNum.nan => none
  | JsNum.num rate =>
    if rate = 0 ∨ idr = 0 then none
    else
      some ⟨(idr : ℚ) / rate, decide ((idr : ℚ) / rate ≥ limitAmount),
        max 0 ⌊limitAmount * rate⌋⟩

/-- The `results` record (src/App.tsx lines 48-52): per jurisdiction, `check`
at that jurisdiction's currency and threshold amount. -/
def results (amountIDR : String) (rates : Rates) (rg : Region) : Option CheckResult :=
  check rates (idr amountIDR) (LIMITS rg).currency (LIMITS rg).amount

/-- The settled outcome of one remote lookup (`fetch` plus `r.json()`,
src/App.tsx lines 59-60): either a thrown error carrying `e.message` (the
empty string models an error without a message), or a decoded payload whose
`rates.IDR` field is `some v` exactly when it is present with a number value
`v` (src/App.tsx lines 64-65). -/
inductive LookupOutcome
  | failure (msg : String)
  | payload (idrPer : Option JsNum)
deriving DecidableEq

/-- The rejection of the two `Promise.all` joins (src/App.tsx lines 59-60):
the error of the first failing lookup, in the order of
`symbols = [SGD, AED, EUR]`. -/
def firstFailureMsg (o : Currency → LookupOutcome) : Option String :=
  match o Currency.SGD with
  | LookupOutcome.failure m => some m
  | LookupOutcome.payload _ =>
    match o Currency.AED with
    | LookupOutcome.failure m => some m
    | LookupOutcome.payload _ =>
      match o Currency.EUR with
      | LookupOutcome.failure m => some m
      | LookupOutcome.payload _ => none

/-- The entry the `forEach` loop (src/App.tsx lines 62-66) stores in `map` for
one lookup: the payload's number field, when present. -/
def payloadEntry : LookupOutcome → Option JsNum
  | LookupOutcome.failure _ => none
  | LookupOutcome.payload p => p

/-- JavaScript truthiness of a `map` entry (src/App.tsx line 67): an absent
entry, NaN and the number 0 are falsy. -/
def entryTruthy : Option JsNum → Bool
  | some (JsNum.num q) => q != 0
  | _ => false

/-- The numeric value of a `map` entry, with 0 as a dummy for absent or NaN
entries (which never reach the success branch). -/
def entryVal : Option JsNum → ℚ
  | some (JsNum.num q) => q
  | _ => 0

/-- The completeness test `map.SGD && map.AED && map.EUR` behind the check on
src/App.tsx line 67. -/
def ratesComplete (o : Currency → LookupOutcome) : Bool :=
  entryTruthy (payloadEntry (o Currency.SGD)) &&
    entryTruthy (payloadEntry (o Currency.AED)) &&
    entryTruthy (payloadEntry (o Currency.EUR))

/-- Models `Math.round`: round half toward positive infinity. -/
def jsRound (q : ℚ) : ℤ := ⌊q + 1 / 2⌋

/-- The component state touched by `loadRates`: the three manual rate strings,
the fetch error message, the last success timestamp and the in-flight flag
(src/App.tsx lines 20-29). -/
structure FetchState where
  idrPerSGD : String
  idrPerAED : String
  idrPerEUR : String
  fetchError : Option String
  lastFetchedAt : Option ℕ
  fetching : Bool
deriving DecidableEq

/-- The initial component state (src/App.tsx lines 20-29). -/
def initialState : FetchState :=
  ⟨"", "", "", none, none, false⟩

/-- The `loadRates` function (src/App.tsx lines 54-77) as a state transformer
over the settled outcomes of the three lookups and the current time.  A
rejection of either `Promise.all` jumps to the `catch` block, which keeps the
rate strings and the timestamp and stores `e.message`, or the fallback text
when that message is empty; an incomplete `map` throws
`new Error("Unvollständige Kurse")`, caught by the same block; otherwise the
three rate strings are overwritten with the rounded rates and the completion
timestamp is recorded. -/
def loadRates (o : Currency → LookupOutcome) (now : ℕ) (s : FetchState) : FetchState :=
  let s1 : FetchState := { s with fetching := true, fetchError := none }
  match firstFailureMsg o with
  | some m =>
    { s1 with
      fetchError := some (if m = "" then "Konnte Kurse nicht laden." else m),
      fetching := false }
  | none =>
    if ratesComplete o then
      { s1 with
        idrPerSGD := toString (jsRound (entryVal (payloadEntry (o Currency.SGD)))),
        idrPerAED := toString (jsRound (entryVal (payloadEntry (o Currency.AED)))),
        idrPerEUR := toString (jsRound (entryVal (payloadEntry (o Currency.EUR)))),
        lastFetchedAt := some now,
        fetching := false }
    else
      { s1 with fetchError := some "Unvollständige Kurse", fetching := false }

/-- Lookup outcomes of a concrete run in which all three lookups reject with a
network error message. -/
def outcomesNetFail : Currency → LookupOutcome :=
  fun _ => LookupOutcome.failure "Netzwerkfehler"

/-- Lookup outcomes of a concrete run in which every payload carries a number,
but the SGD rate is the (falsy) number 0. -/
def outcomesZeroSGD : Currency → LookupOutcome
  | Currency.SGD => LookupOutcome.payload (some (JsNum.num 0))
  | _ => LookupOutcome.payload (some (JsNum.num 1))

/-- Lookup outcomes of a concrete run in which every payload carries a number,
but the AED rate is the (falsy) number 0. -/
def outcomesZeroAED : Currency → LookupOutcome
  | Currency.AED => LookupOutcome.payload (some (JsNum.num 0))
  | _ => LookupOutcome.payload (some (JsNum.num 2))

/-- Lookup outcomes of a concrete run in which the EUR payload decodes but has
no numeric `rates.IDR` field. -/
def outcomesMissingEUR : Currency → LookupOutcome
  | Currency.EUR => LookupOutcome.payload none
  | _ => LookupOutcome.payload (some (JsNum.num 3))

/-- Positive per-currency rates for a fully successful concrete run. -/
def goodRate : Currency → ℚ
  | Currency.SGD => 12000
  | Currency.AED => 4200
  | Currency.EUR => 17000

/-- Lookup outcomes of a fully successful concrete run carrying the
`goodRate` rates. -/
def outcomesGood : Currency → LookupOutcome :=
  fun c => LookupOutcome.payload (some (JsNum.num (goodRate c)))

/-! ## Helper lemmas -/

/-- Helper: the left fold of `natOfDigits` computes the base-10 value of a
big-endian digit list. -/
theorem foldl_digits_eq (l : List Char) (n : ℕ) :
    l.foldl (fun acc c => 10 * acc + (c.toNat - 48)) n
      = n * 10 ^ l.length + Nat.ofDigits 10 ((l.map fun c => c.toNat - 48).reverse) := by
  induction l generalizing n with
  | nil => simp
  | cons c l ih =>
    rw [List.foldl_cons, ih]
    simp only [List.map_cons, List.reverse_cons, List.length_cons, Nat.ofDigits_append,
      Nat.ofDigits_cons, Nat.ofDigits_nil, List.length_reverse, List.length_map, pow_succ]
    ring

/-- Helper: a `map` entry is truthy exactly when that lookup's payload carried
a nonzero number. -/
theorem entryTruthy_payloadEntry_iff (x : LookupOutcome) :
    entryTruthy (payloadEntry x) = true ↔
      ∃ q, x = LookupOutcome.payload (some (JsNum.num q)) ∧ q ≠ 0 := by
  rcases x with m | p
  · simp [payloadEntry, entryTruthy]
  · rcases p with _ | v
    · simp [payloadEntry, entryTruthy]
    · rcases v with _ | q
      · simp [payloadEntry, entryTruthy]
      · simp [payloadEntry, entryTruthy, bne_iff_ne]

/-- Helper: the joined lookups reject with no message exactly when every
lookup delivered a payload. -/
theorem firstFailureMsg_eq_none_iff (o : Currency → LookupOutcome) :
    firstFailureMsg o = none ↔ ∀ c, ∃ p, o c = LookupOutcome.payload p := by
  constructor
  · intro h c
    rcases hS : o Currency.SGD with m | p <;>
      rcases hA : o Currency.AED with m2 | p2 <;>
      rcases hE : o Currency.EUR with m3 | p3 <;>
      simp only [firstFailureMsg, hS, hA, hE, reduceCtorEq] at h
    cases c
    · exact ⟨p, hS⟩
    · exact ⟨p2, hA⟩
    · exact ⟨p3, hE⟩
  · intro h
    obtain ⟨pS, hS⟩ := h Currency.SGD
    obtain ⟨pA, hA⟩ := h Currency.AED
    obtain ⟨pE, hE⟩ := h Currency.EUR
    simp [firstFailureMsg, hS, hA, hE]

/-! ## Claims -/

/-- Claim C1: for a valid parsed amount (nonzero) and a valid positive rate
for the looked-up currency, `check` returns a result whose converted amount is
exactly the amount divided by the rate, and whose declaration flag holds
precisely when that quotient meets or exceeds the threshold; equality with the
threshold yields the flag (the comparison is non-strict). -/
theorem check_valid_rate_and_amount (rates : Rates) (idr : ℕ) (c : Currency)
    (T r : ℚ) (hget : rates.get c = JsNum.num r) (hr : 0 < r) (hidr : idr ≠ 0) :
    (check rates idr c T).map CheckResult.converted = some ((idr : ℚ) / r) ∧
    ((check rates idr c T).map CheckResult.needsDecl = some true ↔ (idr : ℚ) / r ≥ T) ∧
    ((idr : ℚ) / r = T → (check rates idr c T).map CheckResult.needsDecl = some true) := by
  have hck : check rates idr c T
      = some ⟨(idr : ℚ) / r, decide ((idr : ℚ) / r ≥ T), max 0 ⌊T * r⌋⟩ := by
    simp [check, hget, hr.ne', hidr]
  refine ⟨by simp [hck], by simp [hck], fun h => by simp [hck, h]⟩

/-- Witness for C1 at the concrete boundary input: amount 240000000 IDR, rate
12000 IDR per SGD, threshold 20000 SGD; the converted amount equals the
threshold and the flag is set. -/
theorem check_valid_rate_and_amount_witness :
    Rates.get ⟨JsNum.num 12000, JsNum.nan, JsNum.nan⟩ Currency.SGD = JsNum.num 12000 ∧
    (0 : ℚ) < 12000 ∧ (240000000 : ℕ) ≠ 0 ∧
    ((check ⟨JsNum.num 12000, JsNum.nan, JsNum.nan⟩ 240000000 Currency.SGD 20000).map
        CheckResult.converted = some (((240000000 : ℕ) : ℚ) / 12000) ∧
      ((check ⟨JsNum.num 12000, JsNum.nan, JsNum.nan⟩ 240000000 Currency.SGD 20000).map
          CheckResult.needsDecl = some true ↔ ((240000000 : ℕ) : ℚ) / 12000 ≥ 20000) ∧
      (((240000000 : ℕ) : ℚ) / 12000 = 20000 →
        (check ⟨JsNum.num 12000, JsNum.nan, JsNum.nan⟩ 240000000 Currency.SGD 20000).map
          CheckResult.needsDecl = some true)) :=
  ⟨rfl, by norm_num, by norm_num,
    check_valid_rate_and_amount ⟨JsNum.num 12000, JsNum.nan, JsNum.nan⟩ 240000000
      Currency.SGD 20000 12000 rfl (by norm_num) (by norm_num)⟩

/-- Claim C2: whenever some lookup fails, or the aggregated rate set is
incomplete, `loadRates` stores a single error message and leaves the three
rate strings and the success timestamp unchanged — including the values of
lookups that succeeded in that run. -/
theorem loadRates_failure_leaves_table_unchanged (o : Currency → LookupOutcome)
    (now : ℕ) (s : FetchState)
    (h : firstFailureMsg o ≠ none ∨ ratesComplete o = false) :
    (loadRates o now s).fetchError.isSome = true ∧
    (loadRates o now s).idrPerSGD = s.idrPerSGD ∧
    (loadRates o now s).idrPerAED = s.idrPerAED ∧
    (loadRates o now s).idrPerEUR = s.idrPerEUR ∧
    (loadRates o now s).lastFetchedAt = s.lastFetchedAt := by
  rcases hf : firstFailureMsg o with _ | m
  · have hc : ratesComplete o = false := by
      rcases h with h | h
      · exact absurd hf h
      · exact h
    simp [loadRates, hf, hc]
  · simp [loadRates, hf]

/-- Witness for C2 at a concrete run in which every lookup rejects. -/
theorem loadRates_failure_leaves_table_unchanged_witness :
    (loadRates outcomesNetFail 0 initialState).fetchError.isSome = true ∧
    (loadRates outcomesNetFail 0 initialState).idrPerSGD = initialState.idrPerSGD ∧
    (loadRates outcomesNetFail 0 initialState).idrPerAED = initialState.idrPerAED ∧
    (loadRates outcomesNetFail 0 initialState).idrPerEUR = initialState.idrPerEUR ∧
    (loadRates outcomesNetFail 0 initialState).lastFetchedAt = initialState.lastFetchedAt :=
  loadRates_failure_leaves_table_unchanged outcomesNetFail 0 initialState
    (Or.inl (by decide))

/-- Counterexample to Claim C3 as stated: a negative rate (the value of the
manual rate string -5 for SGD) is not filtered by the guard, so the evaluation
for a valid amount is not null. -/
theorem check_negative_rate_yields_result :
    results "100" (mkRates (JsNum.num (-5)) JsNum.nan JsNum.nan) Region.SG ≠ none := by
  decide

/-- Claim C3 (amended): the evaluation for a jurisdiction is null exactly when
that jurisdiction's rate is NaN (an absent, non-numeric or zero rate string
coerces to NaN via `Number(s) || NaN`), or the rate is the number 0, or the
parsed amount is 0; a negative rate is not filtered and yields a result. -/
theorem results_none_iff (a : String) (rates : Rates) (rg : Region) :
    results a rates rg = none ↔
      rates.get (LIMITS rg).currency = JsNum.nan ∨
        rates.get (LIMITS rg).currency = JsNum.num 0 ∨ idr a = 0 := by
  rcases hget : rates.get (LIMITS rg).currency with _ | r
  · simp [results, check, hget]
  · simp only [results, check, hget]
    split_ifs with h0
    · simp only [eq_self_iff_true, true_iff]
      exact Or.inr (h0.imp (fun h => by rw [h]) id)
    · push_neg at h0
      simp [h0.1, h0.2]

/-- Claim C5: whenever a non-null result is produced with a positive rate, the
equivalent home-currency threshold equals the floor of the jurisdiction's
threshold times the rate, and it is non-negative. -/
theorem check_equivalent_threshold_floor (rates : Rates) (idr : ℕ) (rg : Region)
    (r : ℚ) (hr : 0 < r) (hget : rates.get (LIMITS rg).currency = JsNum.num r)
    (res : CheckResult)
    (h : check rates idr (LIMITS rg).currency (LIMITS rg).amount = some res) :
    res.maxBeforeDeclIDR = ⌊(LIMITS rg).amount * r⌋ ∧ 0 ≤ res.maxBeforeDeclIDR := by
  have hT : 0 < (LIMITS rg).amount := by cases rg <;> norm_num [LIMITS]
  simp only [check, hget] at h
  by_cases h0 : r = 0 ∨ idr = 0
  · simp [h0] at h
  · rw [if_neg h0] at h
    obtain rfl := Option.some.inj h
    constructor
    · exact max_eq_right (Int.floor_nonneg.mpr (mul_pos hT hr).le)
    · exact le_max_left 0 _

/-- Witness for C5 at the concrete input from the spec scenario: amount
25000000 IDR, rate 12000 IDR per SGD, threshold 20000 SGD; the equivalent
threshold is 240000000 IDR. -/
theorem check_equivalent_threshold_floor_witness :
    (0 : ℚ) < 12000 ∧
    check ⟨JsNum.num 12000, JsNum.nan, JsNum.nan⟩ 25000000 (LIMITS Region.SG).currency
        (LIMITS Region.SG).amount = some ⟨6250 / 3, false, 240000000⟩ ∧
    (240000000 : ℤ) = ⌊(LIMITS Region.SG).amount * (12000 : ℚ)⌋ ∧
    (0 : ℤ) ≤ 240000000 := by
  have h : check ⟨JsNum.num 12000, JsNum.nan, JsNum.nan⟩ 25000000
      (LIMITS Region.SG).currency (LIMITS Region.SG).amount
      = some ⟨6250 / 3, false, 240000000⟩ := by
    simp only [check, Rates.get, LIMITS]
    rw [if_neg (by norm_num)]
    simp only [Option.some.injEq, CheckResult.mk.injEq]
    refine ⟨by norm_num, ?_, ?_⟩
    · rw [decide_eq_false_iff_not]
      norm_num
    · have hfl : ⌊(20000 : ℚ) * 12000⌋ = 240000000 := by norm_num
      rw [hfl]
      exact max_eq_right (by norm_num)
  have h2 := check_equivalent_threshold_floor ⟨JsNum.num 12000, JsNum.nan, JsNum.nan⟩
    25000000 Region.SG 12000 (by norm_num) rfl _ h
  exact ⟨by norm_num, h, h2.1, by norm_num⟩

/-- Claim C6: an amount text without any digit character parses to no amount,
so every jurisdiction's evaluation is null whatever the rate table holds. -/
theorem results_null_when_no_digits (a : String)
    (h : ∀ c ∈ a.data, c.isDigit = false) (rates : Rates) (rg : Region) :
    results a rates rg = none := by
  have hid : idr a = 0 := by
    have hfil : a.data.filter (fun c => c.isDigit) = [] := by
      rw [List.filter_eq_nil_iff]
      intro c hc
      simp [h c hc]
    simp [idr, stripNonDigits, natOfDigits, hfil]
  rcases hget : rates.get (LIMITS rg).currency with _ | r <;>
    simp [results, check, hget, hid]

/-- Witness for C6 at a concrete digit-free amount text and a fully populated
rate table. -/
theorem results_null_when_no_digits_witness :
    results "abc" ⟨JsNum.num 15000, JsNum.num 4200, JsNum.num 17000⟩ Region.SG = none :=
  results_null_when_no_digits "abc" (by decide) _ _

/-- Counterexample to Claim C4 as stated: every lookup returns a numeric rate
(the SGD lookup returns the number 0), yet the fetch does not succeed — it
fails with the incomplete-rates error and records no timestamp. -/
theorem loadRates_zero_numeric_rate_fails :
    outcomesZeroSGD Currency.SGD = LookupOutcome.payload (some (JsNum.num 0)) ∧
    outcomesZeroSGD Currency.AED = LookupOutcome.payload (some (JsNum.num 1)) ∧
    outcomesZeroSGD Currency.EUR = LookupOutcome.payload (some (JsNum.num 1)) ∧
    (loadRates outcomesZeroSGD 0 initialState).fetchError = some "Unvollständige Kurse" ∧
    (loadRates outcomesZeroSGD 0 initialState).lastFetchedAt = none := by
  decide

/-- Claim C4 (amended): when all three lookups return a positive numeric rate,
the fetch succeeds: no error is stored, each of the three table entries is
that currency's rate rounded half-up to the nearest whole number (hence a
non-negative integer), and the completion timestamp is recorded.  A numeric
rate of 0 (or NaN) is falsy and instead makes the whole fetch fail. -/
theorem loadRates_all_positive_rates_succeed (o : Currency → LookupOutcome)
    (now : ℕ) (s : FetchState) (q : Currency → ℚ)
    (hp : ∀ c, o c = LookupOutcome.payload (some (JsNum.num (q c))))
    (hq : ∀ c, 0 < q c) :
    (loadRates o now s).fetchError = none ∧
    (loadRates o now s).idrPerSGD = toString (jsRound (q Currency.SGD)) ∧
    (loadRates o now s).idrPerAED = toString (jsRound (q Currency.AED)) ∧
    (loadRates o now s).idrPerEUR = toString (jsRound (q Currency.EUR)) ∧
    (∀ c, 0 ≤ jsRound (q c)) ∧
    (loadRates o now s).lastFetchedAt = some now := by
  have hf : firstFailureMsg o = none := by
    simp [firstFailureMsg, hp Currency.SGD, hp Currency.AED, hp Currency.EUR]
  have hc : ratesComplete o = true := by
    simp [ratesComplete, hp Currency.SGD, hp Currency.AED, hp Currency.EUR,
      payloadEntry, entryTruthy, bne_iff_ne, (hq Currency.SGD).ne',
      (hq Currency.AED).ne', (hq Currency.EUR).ne']
  have hround : ∀ c, 0 ≤ jsRound (q c) := by
    intro c
    rw [jsRound]
    exact Int.floor_nonneg.mpr (by linarith [hq c])
  refine ⟨?_, ?_, ?_, ?_, hround, ?_⟩ <;>
    simp [loadRates, hf, hc, hp Currency.SGD, hp Currency.AED, hp Currency.EUR,
      payloadEntry, entryVal]

/-- Witness for C4 (amended) at a fully successful concrete run. -/
theorem loadRates_all_positive_rates_succeed_witness :
    (loadRates outcomesGood 7 initialState).fetchError = none ∧
    (loadRates outcomesGood 7 initialState).idrPerSGD = toString (jsRound (goodRate Currency.SGD)) ∧
    (loadRates outcomesGood 7 initialState).idrPerAED = toString (jsRound (goodRate Currency.AED)) ∧
    (loadRates outcomesGood 7 initialState).idrPerEUR = toString (jsRound (goodRate Currency.EUR)) ∧
    0 ≤ jsRound (goodRate Currency.SGD) ∧
    (loadRates outcomesGood 7 initialState).lastFetchedAt = some 7 := by
  have h := loadRates_all_positive_rates_succeed outcomesGood 7 initialState goodRate
    (fun c => rfl) (fun c => by cases c <;> norm_num [goodRate])
  exact ⟨h.1, h.2.1, h.2.2.1, h.2.2.2.1, h.2.2.2.2.1 Currency.SGD, h.2.2.2.2.2⟩

/-- Counterexample to Claim C7 as stated: every response carries a numeric
rate value (the AED response carries the number 0), so by the claim every
currency's rate is provided, yet the fetch treats the rate set as incomplete
and fails. -/
theorem loadRates_zero_rate_counts_as_absent :
    outcomesZeroAED Currency.SGD = LookupOutcome.payload (some (JsNum.num 2)) ∧
    outcomesZeroAED Currency.AED = LookupOutcome.payload (some (JsNum.num 0)) ∧
    outcomesZeroAED Currency.EUR = LookupOutcome.payload (some (JsNum.num 2)) ∧
    (loadRates outcomesZeroAED 0 initialState).fetchError = some "Unvollständige Kurse" := by
  decide

/-- Claim C7 (amended): the fetch succeeds exactly when every lookup's response
carries a truthy numeric rate value — a number other than 0 and NaN; a
missing, non-numeric, zero or NaN value is treated as that currency's rate
being absent and makes the whole fetch fail. -/
theorem loadRates_success_iff_truthy_rates (o : Currency → LookupOutcome)
    (now : ℕ) (s : FetchState) :
    (loadRates o now s).fetchError = none ↔
      ∀ c, ∃ q, o c = LookupOutcome.payload (some (JsNum.num q)) ∧ q ≠ 0 := by
  constructor
  · intro h
    rcases hf : firstFailureMsg o with _ | m
    · rcases hc : ratesComplete o with _ | _
      · exfalso
        simp [loadRates, hf, hc] at h
      · intro c
        have h1 : entryTruthy (payloadEntry (o c)) = true := by
          have h2 := hc
          simp only [ratesComplete, Bool.and_eq_true] at h2
          cases c
          · exact h2.1.1
          · exact h2.1.2
          · exact h2.2
        exact (entryTruthy_payloadEntry_iff _).mp h1
    · exfalso
      simp [loadRates, hf] at h
  · intro hAll
    have hf : firstFailureMsg o = none :=
      (firstFailureMsg_eq_none_iff o).mpr fun c => by
        obtain ⟨q, hq, _⟩ := hAll c
        exact ⟨_, hq⟩
    have hc : ratesComplete o = true := by
      simp only [ratesComplete, Bool.and_eq_true]
      exact ⟨⟨(entryTruthy_payloadEntry_iff _).mpr (hAll Currency.SGD),
        (entryTruthy_payloadEntry_iff _).mpr (hAll Currency.AED)⟩,
        (entryTruthy_payloadEntry_iff _).mpr (hAll Currency.EUR)⟩
    simp [loadRates, hf, hc]

/-- Counterexample to Claim C8 as stated: an incomplete rate set makes the
fetch fail with the German message of the source, not with the message text
named by the claim. -/
theorem loadRates_incomplete_message_is_german :
    (loadRates outcomesMissingEUR 0 initialState).fetchError = some "Unvollständige Kurse" ∧
    (loadRates outcomesMissingEUR 0 initialState).fetchError ≠ some "incomplete rates" := by
  decide

/-- Claim C8 (amended): when every lookup settles with a payload but the rate
set is incomplete, the fetch fails with the single aggregate message
Unvollständige Kurse (the source's German wording of incomplete rates); when a
lookup fails, the fetch fails with that cause's message, or with the generic
fallback text when the cause's message is empty. -/
theorem loadRates_error_message_spec (o : Currency → LookupOutcome) (now : ℕ)
    (s : FetchState) :
    (firstFailureMsg o = none → ratesComplete o = false →
      (loadRates o now s).fetchError = some "Unvollständige Kurse") ∧
    (∀ m, firstFailureMsg o = some m →
      (loadRates o now s).fetchError
        = some (if m = "" then "Konnte Kurse nicht laden." else m)) := by
  constructor
  · intro hf hc
    simp [loadRates, hf, hc]
  · intro m hf
    simp [loadRates, hf]

/-- Witness for C8 (amended) at a concrete failing run: the lookups reject
with a non-empty message, which is surfaced unchanged. -/
theorem loadRates_error_message_spec_witness :
    firstFailureMsg outcomesNetFail = some "Netzwerkfehler" ∧
    (loadRates outcomesNetFail 0 initialState).fetchError = some "Netzwerkfehler" := by
  refine ⟨rfl, ?_⟩
  have h := (loadRates_error_message_spec outcomesNetFail 0 initialState).2
    "Netzwerkfehler" rfl
  rw [if_neg (by decide)] at h
  exact h

/-- Claim C9: the declaration evaluator is total and deterministic — for every
amount text and every rate table it yields a definite value, null or a result
record, and equal inputs yield equal outputs. -/
theorem results_total (a : String) (rates : Rates) (rg : Region) :
    (results a rates rg = none ∨ ∃ res, results a rates rg = some res) ∧
      results a rates rg = results a rates rg := by
  refine ⟨?_, rfl⟩
  rcases h : results a rates rg with _ | res
  · exact Or.inl rfl
  · exact Or.inr ⟨res, rfl⟩

/-- Claim C10: the parsed amount is the non-negative integer formed by the
digit characters of the amount text in order; every other character, decimal
separators and minus signs included, is discarded, so 12.5 parses to 125 and
-500 parses to 500. -/
theorem parseAmount_is_digit_concatenation :
    (∀ s : String, idr s
        = Nat.ofDigits 10 (((s.data.filter fun c => c.isDigit).map fun c => c.toNat - 48).reverse))
    ∧ idr "12.5" = 125 ∧ idr "-500" = 500 := by
  refine ⟨fun s => ?_, by decide, by decide⟩
  unfold idr stripNonDigits natOfDigits
  rw [foldl_digits_eq]
  simp
